import Mathlib

/-!
Shallow embedding of `src/native/winrt/msstore_winrt.cpp`, the native bridge
of the msstorelib repository, together with theorems settling the claims
about its specification.

Modelling conventions:
- The `thread_local std::string g_lastError` is a total map from thread id to
  the string stored in that thread's slot (`ErrorStore`); a default-constructed
  slot holds the empty string.
- C strings crossing the boundary are `Option String`: `none` is the null
  pointer, `some s` a non-null buffer holding `s`.
- Calls into the Windows/WinRT platform that may throw are recorded in a
  per-call environment (`Env`) as `Except PlatformFailure _` values: the
  environment says what the platform did when this particular call invoked it.
- `CoTaskMemAlloc` success or failure is the environment's `allocOk` flag.
-/

namespace MsStoreWinrt

/-- Identifier of a calling (JVM) thread. -/
abbrev ThreadId := Nat

/-- Model of `static thread_local std::string g_lastError`: every thread's
last-error slot.  A slot that was never written holds `""`. -/
abbrev ErrorStore := ThreadId → String

/-- The error store in which no thread has ever recorded an error. -/
def emptyStore : ErrorStore := fun _ => ""

/-- The assignment `g_lastError = msg` executed on thread `tid`
(also used for `g_lastError.clear()`, which is `setError es tid ""`). -/
def setError (es : ErrorStore) (tid : ThreadId) (msg : String) : ErrorStore :=
  fun t => if t = tid then msg else es t

/-- The kinds of exception the entry points catch: `winrt::hresult_error`
(platform-reported), `std::exception` (generic runtime error), and `...`
(unknown/unanticipated). -/
inductive PlatformFailure where
  | hresultError (msg : String)
  | stdError (msg : String)
  | unknownError
deriving DecidableEq

/-- The message each catch clause stores into `g_lastError`:
`to_string(ex.message())` for `hresult_error`, `ex.what()` for
`std::exception`, and the fixed `"Unknown native error."` otherwise. -/
def PlatformFailure.storedMessage : PlatformFailure → String
  | .hresultError msg => msg
  | .stdError msg => msg
  | .unknownError => "Unknown native error."

/-- `dup_string`: copies `value` into a fresh `CoTaskMemAlloc` buffer.
`allocOk` says whether `CoTaskMemAlloc` succeeded; on failure the function
returns the null pointer (`none`). -/
def dup_string (allocOk : Bool) (value : String) : Option String :=
  if allocOk then some value else none

/-- `winrt::Windows::Services::Store::StorePurchaseStatus`, an `enum class`
over int32.  `Other raw` stands for any raw int32 value distinct from the
five documented enumerators (the `switch` default). -/
inductive StorePurchaseStatus where
  | Succeeded
  | AlreadyPurchased
  | NotPurchased
  | NetworkError
  | ServerError
  | Other (raw : Int)
deriving DecidableEq

/-- `map_purchase_status`: the `switch` translating `StorePurchaseStatus`
into the stable numeric codes exposed to the JVM. -/
def map_purchase_status : StorePurchaseStatus → Int
  | .Succeeded => 0
  | .AlreadyPurchased => 1
  | .NotPurchased => 2
  | .NetworkError => 3
  | .ServerError => 4
  | .Other _ => 5

/-- `winrt::Windows::Services::Store::StoreRateAndReviewStatus`, an
`enum class` over int32.  `Other raw` stands for any raw int32 value distinct
from the four documented enumerators (the `switch` default). -/
inductive StoreRateAndReviewStatus where
  | Succeeded
  | CanceledByUser
  | NetworkError
  | Error
  | Other (raw : Int)
deriving DecidableEq

/-- `map_rate_and_review_status`: the `switch` translating
`StoreRateAndReviewStatus` into the stable numeric codes exposed to the JVM. -/
def map_rate_and_review_status : StoreRateAndReviewStatus → Int
  | .Succeeded => 0
  | .CanceledByUser => 1
  | .NetworkError => 2
  | .Error => 3
  | .Other _ => 4

/-- `winrt::Windows::Foundation::AsyncStatus`. -/
inductive AsyncStatus where
  | Started
  | Completed
  | Canceled
  | Error
deriving DecidableEq

/-- A queued window message (identified by a number; its content is
irrelevant to the bridge, which only translates and dispatches it). -/
abbrev Msg := Nat

/-- Observable events of the pumping wait loop
`wait_for_rate_and_review_result`, in the order they occur:
`statusCheck k s` is the evaluation of `operation.Status()` at the start of
poll cycle `k`, observing `s`; `dispatch m` is one
`TranslateMessage`/`DispatchMessageW` of a message removed by `PeekMessageW`;
`boundedWait` is the bounded `MsgWaitForMultipleObjectsEx(…, 50, …)` wait;
`getResults` is the single final `operation.GetResults()`. -/
inductive Ev where
  | statusCheck (cycle : Nat) (observed : AsyncStatus)
  | dispatch (m : Msg)
  | boundedWait
  | getResults
deriving DecidableEq

/-- Model of an in-flight
`IAsyncOperation<StoreRateAndReviewResult>` as the pump loop observes it:
the operation reports `Started` for the first `completesAfter` poll cycles
and `finalStatus` (≠ `Started`) from then on; `pending k` lists the messages
queued on the calling thread when cycle `k` drains the queue; `results` is
what `GetResults()` does once the operation has left `Started`
(`.error f`: it throws `f`; `.ok none`: it yields a null result object;
`.ok (some s)`: it yields a result whose `Status()` is `s`). -/
structure AsyncOpModel where
  completesAfter : Nat
  finalStatus : AsyncStatus
  finalStatus_ne : finalStatus ≠ AsyncStatus.Started
  pending : Nat → List Msg
  results : Except PlatformFailure (Option StoreRateAndReviewStatus)

/-- `operation.Status()` observed at poll cycle `k`. -/
def AsyncOpModel.statusAt (op : AsyncOpModel) (k : Nat) : AsyncStatus :=
  if k < op.completesAfter then AsyncStatus.Started else op.finalStatus

/-- The events of one iteration of the pump loop's `while` body entered at
cycle `k`: the loop condition observes `Started`, the inner `PeekMessageW`
loop removes and dispatches every pending message, then the bounded
`MsgWaitForMultipleObjectsEx` wait runs. -/
def pumpCycleEvents (op : AsyncOpModel) (k : Nat) : List Ev :=
  Ev.statusCheck k AsyncStatus.Started ::
    ((op.pending k).map Ev.dispatch ++ [Ev.boundedWait])

/-- The pump loop of `wait_for_rate_and_review_result`, as a structural
recursion on the number of remaining `Started` cycles.  The first argument is
that remaining count; at the top level it is `op.completesAfter`, so the
zero-fuel base case is reached exactly at the first cycle whose status is no
longer `Started` and coincides there with the exit branch: check the status,
`GetResults()`, return.  Returns the event trace and the loop's result. -/
def wait_go (op : AsyncOpModel) :
    Nat → Nat → List Ev × Except PlatformFailure (Option StoreRateAndReviewStatus)
  | 0, k =>
      ([Ev.statusCheck k (op.statusAt k), Ev.getResults], op.results)
  | fuel + 1, k =>
      if op.statusAt k = AsyncStatus.Started then
        let rest := wait_go op fuel (k + 1)
        (pumpCycleEvents op k ++ rest.1, rest.2)
      else
        ([Ev.statusCheck k (op.statusAt k), Ev.getResults], op.results)

/-- `wait_for_rate_and_review_result`: pumps a nested message loop until the
async operation leaves `Started`, then retrieves its result. -/
def wait_for_rate_and_review_result (op : AsyncOpModel) :
    List Ev × Except PlatformFailure (Option StoreRateAndReviewStatus) :=
  wait_go op op.completesAfter 0

/-- `StoreAppLicense`, reduced to the only member the bridge reads. -/
structure StoreAppLicense where
  extendedJsonData : String

/-- Per-call environment: what the operating system and the WinRT Store
platform do when this particular call invokes them.
`initApartment` is `init_apartment(single_threaded)`; `getDefault` is
`StoreContext::GetDefault()`; `appLicense` is `GetAppLicenseAsync().get()`
(`.ok none`: a null `StoreAppLicense`); `foregroundWindow` is
`GetForegroundWindow()`; `initializeWithWindow` is
`context.as<IInitializeWithWindow>()->Initialize(hwnd)`; `purchaseResult` is
`RequestPurchaseAsync(id).get()` together with `result.Status()`
(`.ok none`: a null `StorePurchaseResult`); `rateDispatch` is the call
`RequestRateAndReviewAppAsync()` itself; `rateOp` is the operation it hands
back; `allocOk` is whether `CoTaskMemAlloc` succeeds. -/
structure Env where
  initApartment : Except PlatformFailure Unit
  getDefault : Except PlatformFailure Unit
  appLicense : Except PlatformFailure (Option StoreAppLicense)
  foregroundWindow : Option Nat
  initializeWithWindow : Except PlatformFailure Unit
  purchaseResult : Except PlatformFailure (Option StorePurchaseStatus)
  rateDispatch : Except PlatformFailure Unit
  rateOp : AsyncOpModel
  allocOk : Bool

/-- `initialize_store_ui_owner`: binds the Store modal UI to the current
foreground window.  Returns `false` (after recording the error) when
`GetForegroundWindow()` is null; the `as`/`Initialize` platform calls may
throw, which the caller's catch clauses handle (`.error`). -/
def initialize_store_ui_owner (env : Env) (tid : ThreadId) (es : ErrorStore) :
    Except PlatformFailure (Bool × ErrorStore) :=
  match env.foregroundWindow with
  | none =>
      Except.ok
        (false, setError es tid "No foreground window handle available for Store UI.")
  | some _ =>
      match env.initializeWithWindow with
      | .error f => .error f
      | .ok _ => .ok (true, es)

/-- `msstore_winrt_get_license_json` executed on thread `tid` in
environment `env`: returns the buffer handed back to the caller (`none` is
the null pointer) and the updated error store. -/
def msstore_winrt_get_license_json (env : Env) (tid : ThreadId) (es : ErrorStore) :
    Option String × ErrorStore :=
  match env.initApartment with
  | .error f => (none, setError es tid f.storedMessage)
  | .ok _ =>
    match env.getDefault with
    | .error f => (none, setError es tid f.storedMessage)
    | .ok _ =>
      match env.appLicense with
      | .error f => (none, setError es tid f.storedMessage)
      | .ok none => (none, setError es tid "StoreAppLicense is null.")
      | .ok (some license) =>
          let json := license.extendedJsonData
          let cleared := setError es tid ""
          (dup_string env.allocOk json, cleared)

/-- `msstore_winrt_get_last_error` executed on thread `tid`: duplicates the
current thread's slot into a fresh buffer and leaves the store untouched. -/
def msstore_winrt_get_last_error (allocOk : Bool) (tid : ThreadId) (es : ErrorStore) :
    Option String × ErrorStore :=
  (dup_string allocOk (es tid), es)

/-- Outcome of an `int`-returning entry point: the returned status code,
the updated error store, and whether the Store async operation was actually
dispatched (`RequestPurchaseAsync` / `RequestRateAndReviewAppAsync` invoked). -/
structure CallOutcome where
  ret : Int
  store : ErrorStore
  dispatched : Bool
deriving Inhabited

/-- `msstore_winrt_request_purchase` executed on thread `tid` with argument
`storeId` (`none` is the null pointer; the C code rejects null and the
empty string) in environment `env`. -/
def msstore_winrt_request_purchase (env : Env) (storeId : Option String)
    (tid : ThreadId) (es : ErrorStore) : CallOutcome :=
  match storeId with
  | none => ⟨-1, setError es tid "Store ID is null or empty.", false⟩
  | some sid =>
    if sid = "" then ⟨-1, setError es tid "Store ID is null or empty.", false⟩
    else
      match env.initApartment with
      | .error f => ⟨-1, setError es tid f.storedMessage, false⟩
      | .ok _ =>
        match env.getDefault with
        | .error f => ⟨-1, setError es tid f.storedMessage, false⟩
        | .ok _ =>
          match initialize_store_ui_owner env tid es with
          | .error f => ⟨-1, setError es tid f.storedMessage, false⟩
          | .ok (false, es1) => ⟨-1, es1, false⟩
          | .ok (true, es1) =>
            match env.purchaseResult with
            | .error f => ⟨-1, setError es1 tid f.storedMessage, true⟩
            | .ok none => ⟨-1, setError es1 tid "StorePurchaseResult is null.", true⟩
            | .ok (some status) =>
                ⟨map_purchase_status status, setError es1 tid "", true⟩

/-- `msstore_winrt_request_rate_and_review` executed on thread `tid` in
environment `env`. -/
def msstore_winrt_request_rate_and_review (env : Env) (tid : ThreadId)
    (es : ErrorStore) : CallOutcome :=
  match env.initApartment with
  | .error f => ⟨-1, setError es tid f.storedMessage, false⟩
  | .ok _ =>
    match env.getDefault with
    | .error f => ⟨-1, setError es tid f.storedMessage, false⟩
    | .ok _ =>
      match initialize_store_ui_owner env tid es with
      | .error f => ⟨-1, setError es tid f.storedMessage, false⟩
      | .ok (false, es1) => ⟨-1, es1, false⟩
      | .ok (true, es1) =>
        match env.rateDispatch with
        | .error f => ⟨-1, setError es1 tid f.storedMessage, false⟩
        | .ok _ =>
          match (wait_for_rate_and_review_result env.rateOp).2 with
          | .error f => ⟨-1, setError es1 tid f.storedMessage, true⟩
          | .ok none => ⟨-1, setError es1 tid "StoreRateAndReviewResult is null.", true⟩
          | .ok (some status) =>
              ⟨map_rate_and_review_status status, setError es1 tid "", true⟩

/-- Which allocator a pointer came from: the COM shared system allocator
(`CoTaskMemAlloc`/`CoTaskMemFree`) or some module-private heap. -/
inductive Allocator where
  | coTaskMem
  | moduleHeap
deriving DecidableEq

/-- A non-null pointer, tagged with the allocator that produced it. -/
structure Ptr where
  addr : Nat
  alloc : Allocator
deriving DecidableEq

/-- `CoTaskMemAlloc` at address `addr`: yields a pointer owned by the COM
shared allocator, or the null pointer when allocation fails. -/
def coTaskMemAlloc (addr : Nat) (ok : Bool) : Option Ptr :=
  if ok then some ⟨addr, Allocator.coTaskMem⟩ else none

/-- Pointer-level view of `dup_string`: the buffer it hands out is whatever
`::CoTaskMemAlloc` produced. -/
def dup_string_alloc (addr : Nat) (ok : Bool) : Option Ptr :=
  coTaskMemAlloc addr ok

/-- What a call to `msstore_winrt_free` does: nothing, or one
`::CoTaskMemFree(p)`. -/
inductive FreeEffect where
  | noop
  | viaCoTaskMemFree (p : Ptr)
deriving DecidableEq

/-- `msstore_winrt_free`: null pointers are skipped entirely; non-null
pointers are handed to `::CoTaskMemFree`. -/
def msstore_winrt_free : Option Ptr → FreeEffect
  | none => FreeEffect.noop
  | some p => FreeEffect.viaCoTaskMemFree p

/-- A free faults (undefined behavior) exactly when it hands
`::CoTaskMemFree` a pointer that some other allocator produced; doing
nothing never faults. -/
def FreeEffect.faults : FreeEffect → Bool
  | FreeEffect.noop => false
  | FreeEffect.viaCoTaskMemFree p => decide (p.alloc ≠ Allocator.coTaskMem)

/-- One call into the library: which entry point, with which argument and in
which per-call environment. -/
inductive Call where
  | licenseCall (env : Env)
  | purchaseCall (env : Env) (storeId : Option String)
  | rateCall (env : Env)
  | lastErrorCall (allocOk : Bool)

/-- The effect of one call, executed on thread `tid`, on the error store. -/
def stepCall (tid : ThreadId) (c : Call) (es : ErrorStore) : ErrorStore :=
  match c with
  | .licenseCall env => (msstore_winrt_get_license_json env tid es).2
  | .purchaseCall env sid => (msstore_winrt_request_purchase env sid tid es).store
  | .rateCall env => (msstore_winrt_request_rate_and_review env tid es).store
  | .lastErrorCall ok => (msstore_winrt_get_last_error ok tid es).2

/-- A sequence of calls, each tagged with the thread that runs it, executed
in order (the spec's per-thread sequential model: the interesting state,
`g_lastError`, is only ever touched by the calling thread). -/
def runCalls : List (ThreadId × Call) → ErrorStore → ErrorStore
  | [], es => es
  | (tid, c) :: rest, es => runCalls rest (stepCall tid c es)

/-! ## Derived predicates on a call's environment -/

/-- The purchase argument the C code accepts: a non-null, non-empty string. -/
def validStoreId (storeId : Option String) : Prop :=
  ∃ s, storeId = some s ∧ s ≠ ""

/-- The license fetch itself succeeded: apartment initialization, context
acquisition and the awaited async call all returned, and the license object
is non-null (everything up to and including the `if (!license)` check). -/
def licenseFetchSucceeded (env : Env) : Prop :=
  env.initApartment = Except.ok () ∧ env.getDefault = Except.ok () ∧
    ∃ l, env.appLicense = Except.ok (some l)

/-- The purchase flow ran to completion: valid input, all platform steps
returned, and the result object is non-null. -/
def purchaseFlowCompleted (env : Env) (storeId : Option String) : Prop :=
  validStoreId storeId ∧ env.initApartment = Except.ok () ∧
    env.getDefault = Except.ok () ∧ (∃ w, env.foregroundWindow = some w) ∧
    env.initializeWithWindow = Except.ok () ∧
    ∃ s, env.purchaseResult = Except.ok (some s)

/-- The rating flow ran to completion: all platform steps returned and the
result object is non-null. -/
def rateFlowCompleted (env : Env) : Prop :=
  env.initApartment = Except.ok () ∧ env.getDefault = Except.ok () ∧
    (∃ w, env.foregroundWindow = some w) ∧
    env.initializeWithWindow = Except.ok () ∧ env.rateDispatch = Except.ok () ∧
    ∃ s, env.rateOp.results = Except.ok (some s)

/-- Well-formedness of an environment: every failure the platform throws at
this call carries a non-empty stored message (platform-reported and runtime
errors carry their message; the unknown-failure message is a fixed non-empty
string anyway). -/
def envWF (env : Env) : Prop :=
  (∀ f, env.initApartment = Except.error f → f.storedMessage ≠ "") ∧
  (∀ f, env.getDefault = Except.error f → f.storedMessage ≠ "") ∧
  (∀ f, env.appLicense = Except.error f → f.storedMessage ≠ "") ∧
  (∀ f, env.initializeWithWindow = Except.error f → f.storedMessage ≠ "") ∧
  (∀ f, env.purchaseResult = Except.error f → f.storedMessage ≠ "") ∧
  (∀ f, env.rateDispatch = Except.error f → f.storedMessage ≠ "") ∧
  (∀ f, env.rateOp.results = Except.error f → f.storedMessage ≠ "")

/-- The first exception the `try` body of `msstore_winrt_get_license_json`
encounters, if any (the failures its catch clauses absorb). -/
def license_caught_failure (env : Env) : Option PlatformFailure :=
  match env.initApartment with
  | .error f => some f
  | .ok _ =>
    match env.getDefault with
    | .error f => some f
    | .ok _ =>
      match env.appLicense with
      | .error f => some f
      | .ok _ => none

/-- The first exception the `try` body of `msstore_winrt_request_purchase`
encounters, if any. -/
def purchase_caught_failure (env : Env) (storeId : Option String) :
    Option PlatformFailure :=
  match storeId with
  | none => none
  | some sid =>
    if sid = "" then none
    else
      match env.initApartment with
      | .error f => some f
      | .ok _ =>
        match env.getDefault with
        | .error f => some f
        | .ok _ =>
          match env.foregroundWindow with
          | none => none
          | some _ =>
            match env.initializeWithWindow with
            | .error f => some f
            | .ok _ =>
              match env.purchaseResult with
              | .error f => some f
              | .ok _ => none

/-- The first exception the `try` body of
`msstore_winrt_request_rate_and_review` encounters, if any. -/
def rate_caught_failure (env : Env) : Option PlatformFailure :=
  match env.initApartment with
  | .error f => some f
  | .ok _ =>
    match env.getDefault with
    | .error f => some f
    | .ok _ =>
      match env.foregroundWindow with
      | none => none
      | some _ =>
        match env.initializeWithWindow with
        | .error f => some f
        | .ok _ =>
          match env.rateDispatch with
          | .error f => some f
          | .ok _ =>
            match env.rateOp.results with
            | .error f => some f
            | .ok _ => none

/-! ## Concrete environments used by witnesses and counterexamples -/

/-- An already-finished rating operation reporting success. -/
def opDone : AsyncOpModel :=
  ⟨0, AsyncStatus.Completed, by decide, fun _ => [],
    Except.ok (some StoreRateAndReviewStatus.Succeeded)⟩

/-- An environment in which every platform step succeeds. -/
def envAllOk : Env :=
  ⟨Except.ok (), Except.ok (), Except.ok (some ⟨"license-json"⟩), some 1,
    Except.ok (), Except.ok (some StorePurchaseStatus.AlreadyPurchased),
    Except.ok (), opDone, true⟩

/-! ## Helper lemmas -/

theorem setError_self (es : ErrorStore) (tid : ThreadId) (msg : String) :
    setError es tid msg tid = msg := by
  simp [setError]

theorem setError_other (es : ErrorStore) (tid : ThreadId) (msg : String)
    (t : ThreadId) (h : t ≠ tid) : setError es tid msg t = es t := by
  simp [setError, h]

theorem wait_go_snd (op : AsyncOpModel) (fuel : Nat) :
    ∀ k, (wait_go op fuel k).2 = op.results := by
  induction fuel with
  | zero => intro k; rfl
  | succ n ih =>
      intro k
      unfold wait_go
      split
      · simpa using ih (k + 1)
      · rfl

/-- The pump loop always returns exactly what `GetResults()` yields. -/
theorem wait_for_rate_and_review_result_snd (op : AsyncOpModel) :
    (wait_for_rate_and_review_result op).2 = op.results :=
  wait_go_snd op op.completesAfter 0

theorem map_purchase_status_nonneg (s : StorePurchaseStatus) :
    0 ≤ map_purchase_status s := by
  cases s <;> simp [map_purchase_status]

theorem map_rate_and_review_status_nonneg (s : StoreRateAndReviewStatus) :
    0 ≤ map_rate_and_review_status s := by
  cases s <;> simp [map_rate_and_review_status]

theorem map_purchase_status_ne_neg_one (s : StorePurchaseStatus) :
    map_purchase_status s ≠ -1 := by
  cases s <;> simp [map_purchase_status]

theorem map_rate_and_review_status_ne_neg_one (s : StoreRateAndReviewStatus) :
    map_rate_and_review_status s ≠ -1 := by
  cases s <;> simp [map_rate_and_review_status]

/-! ## Claims about the status mapping functions -/

/-- C10: both status-mapping functions are total (they are total Lean
functions over the full status type, unknown raw values included); every
purchase status maps into 0..5 with every unrecognized value sent to 5, and
every rating status maps into 0..4 with every unrecognized value sent to 4. -/
theorem C10_status_maps_total :
    (∀ s, 0 ≤ map_purchase_status s ∧ map_purchase_status s ≤ 5) ∧
    (∀ raw, map_purchase_status (StorePurchaseStatus.Other raw) = 5) ∧
    (∀ s, 0 ≤ map_rate_and_review_status s ∧ map_rate_and_review_status s ≤ 4) ∧
    (∀ raw, map_rate_and_review_status (StoreRateAndReviewStatus.Other raw) = 4) := by
  refine ⟨fun s => ?_, fun raw => rfl, fun s => ?_, fun raw => rfl⟩
  · cases s <;> simp [map_purchase_status]
  · cases s <;> simp [map_rate_and_review_status]

/-- C5: a null or empty store id makes `msstore_winrt_request_purchase`
return −1 with the invalid-input message in the calling thread's slot and
with no platform dispatch (`dispatched = false`). -/
theorem C5_invalid_store_id (env : Env) (tid : ThreadId) (es : ErrorStore) :
    msstore_winrt_request_purchase env none tid es =
      ⟨-1, setError es tid "Store ID is null or empty.", false⟩ ∧
    msstore_winrt_request_purchase env (some "") tid es =
      ⟨-1, setError es tid "Store ID is null or empty.", false⟩ := by
  constructor
  · rfl
  · simp [msstore_winrt_request_purchase]

/-- C9: `msstore_winrt_free` on the null pointer performs no deallocation
and cannot fault, and every buffer `dup_string` hands out comes from the
COM shared allocator (`CoTaskMemAlloc`), to which `msstore_winrt_free`
returns it via `CoTaskMemFree` without faulting. -/
theorem C9_free_contract :
    (msstore_winrt_free none = FreeEffect.noop ∧
      (msstore_winrt_free none).faults = false) ∧
    (∀ addr ok p, dup_string_alloc addr ok = some p →
      p.alloc = Allocator.coTaskMem ∧
      msstore_winrt_free (some p) = FreeEffect.viaCoTaskMemFree p ∧
      (msstore_winrt_free (some p)).faults = false) := by
  refine ⟨⟨rfl, rfl⟩, fun addr ok p h => ?_⟩
  cases ok with
  | false => simp [dup_string_alloc, coTaskMemAlloc] at h
  | true =>
      simp only [dup_string_alloc, coTaskMemAlloc, if_true, Option.some.injEq] at h
      subst h
      exact ⟨rfl, rfl, rfl⟩

/-- Witness for C9 at a concrete allocation. -/
theorem C9_free_contract_witness :
    dup_string_alloc 7 true = some ⟨7, Allocator.coTaskMem⟩ ∧
    msstore_winrt_free (some ⟨7, Allocator.coTaskMem⟩) =
      FreeEffect.viaCoTaskMemFree ⟨7, Allocator.coTaskMem⟩ :=
  ⟨rfl, (C9_free_contract.2 7 true ⟨7, Allocator.coTaskMem⟩ rfl).2.1⟩

/-- C2 counterexample: when `CoTaskMemAlloc` fails, `dup_string` — and with
it `msstore_winrt_get_last_error` — returns the null pointer, so the claim
that the function never returns a null buffer is false as stated. -/
theorem C2_counterexample :
    (msstore_winrt_get_last_error false 0 emptyStore).1 = none := rfl

/-- C2 (amended): `msstore_winrt_get_last_error` never throws and never
modifies the slot; whenever the shared allocator succeeds it returns a
freshly allocated non-null buffer holding the calling thread's current
message (possibly empty), and it returns null exactly when the allocation
fails. -/
theorem C2_last_error_total :
    (∀ tid es, msstore_winrt_get_last_error true tid es = (some (es tid), es)) ∧
    (∀ tid es, msstore_winrt_get_last_error false tid es = (none, es)) ∧
    (∀ ok tid es, (msstore_winrt_get_last_error ok tid es).2 = es) := by
  exact ⟨fun tid es => rfl, fun tid es => rfl, fun ok tid es => rfl⟩

/-- C4: the status-code translation is exactly the two fixed tables, and the
`int`-returning entry points yield −1 exactly when the flow did not run to
completion (dispatch/validation failure); on a completed flow they return
the table image of the platform status. -/
theorem C4_status_code_tables :
    (map_purchase_status StorePurchaseStatus.Succeeded = 0 ∧
      map_purchase_status StorePurchaseStatus.AlreadyPurchased = 1 ∧
      map_purchase_status StorePurchaseStatus.NotPurchased = 2 ∧
      map_purchase_status StorePurchaseStatus.NetworkError = 3 ∧
      map_purchase_status StorePurchaseStatus.ServerError = 4 ∧
      ∀ raw, map_purchase_status (StorePurchaseStatus.Other raw) = 5) ∧
    (map_rate_and_review_status StoreRateAndReviewStatus.Succeeded = 0 ∧
      map_rate_and_review_status StoreRateAndReviewStatus.CanceledByUser = 1 ∧
      map_rate_and_review_status StoreRateAndReviewStatus.NetworkError = 2 ∧
      map_rate_and_review_status StoreRateAndReviewStatus.Error = 3 ∧
      ∀ raw, map_rate_and_review_status (StoreRateAndReviewStatus.Other raw) = 4) ∧
    (∀ env sid tid es,
      (msstore_winrt_request_purchase env sid tid es).ret = -1 ↔
        ¬ purchaseFlowCompleted env sid) ∧
    (∀ env tid es,
      (msstore_winrt_request_rate_and_review env tid es).ret = -1 ↔
        ¬ rateFlowCompleted env) ∧
    (∀ env sid tid es s, purchaseFlowCompleted env sid →
      env.purchaseResult = Except.ok (some s) →
      (msstore_winrt_request_purchase env sid tid es).ret = map_purchase_status s) ∧
    (∀ env tid es s, rateFlowCompleted env →
      env.rateOp.results = Except.ok (some s) →
      (msstore_winrt_request_rate_and_review env tid es).ret =
        map_rate_and_review_status s) := by
  refine ⟨⟨rfl, rfl, rfl, rfl, rfl, fun raw => rfl⟩,
    ⟨rfl, rfl, rfl, rfl, fun raw => rfl⟩, ?_, ?_, ?_, ?_⟩
  · intro env sid tid es
    obtain ⟨ia, gd, al, fg, iw, pr, rd, ro, aok⟩ := env
    cases sid with
    | none =>
        simp [msstore_winrt_request_purchase, purchaseFlowCompleted, validStoreId]
    | some s =>
        by_cases hs : s = ""
        · subst hs
          simp [msstore_winrt_request_purchase, purchaseFlowCompleted, validStoreId]
        · rcases ia with f1 | ⟨⟩ <;> rcases gd with f2 | ⟨⟩ <;>
            rcases fg with _ | w <;> rcases iw with f3 | ⟨⟩ <;>
            rcases pr with f4 | (_ | st) <;>
            simp [msstore_winrt_request_purchase, initialize_store_ui_owner,
              purchaseFlowCompleted, validStoreId, hs,
              map_purchase_status_ne_neg_one]
  · intro env tid es
    obtain ⟨ia, gd, al, fg, iw, pr, rd, ro, aok⟩ := env
    rcases ia with f1 | ⟨⟩ <;> rcases gd with f2 | ⟨⟩ <;>
      rcases fg with _ | w <;> rcases iw with f3 | ⟨⟩ <;>
      rcases rd with f4 | ⟨⟩ <;> rcases hres : ro.results with f5 | (_ | st) <;>
      simp [msstore_winrt_request_rate_and_review, initialize_store_ui_owner,
        rateFlowCompleted, wait_for_rate_and_review_result_snd, hres,
        map_rate_and_review_status_ne_neg_one]
  · intro env sid tid es s hcomp hres
    obtain ⟨⟨sv, rfl, hsv⟩, hia, hgd, ⟨w, hfg⟩, hiw, _⟩ := hcomp
    simp [msstore_winrt_request_purchase, initialize_store_ui_owner, hia, hgd,
      hfg, hiw, hres, hsv]
  · intro env tid es s hcomp hres
    obtain ⟨hia, hgd, ⟨w, hfg⟩, hiw, hrd, _⟩ := hcomp
    simp [msstore_winrt_request_rate_and_review, initialize_store_ui_owner,
      hia, hgd, hfg, hiw, hrd, wait_for_rate_and_review_result_snd, hres]

/-- Witness for C4 at a concrete completed flow: `AlreadyPurchased` comes
back as 1 and a valid flow does not return −1. -/
theorem C4_status_code_tables_witness :
    purchaseFlowCompleted envAllOk (some "9NABCDEF") ∧
    (msstore_winrt_request_purchase envAllOk (some "9NABCDEF") 0 emptyStore).ret = 1 := by
  have hcomp : purchaseFlowCompleted envAllOk (some "9NABCDEF") :=
    ⟨⟨"9NABCDEF", rfl, by decide⟩, rfl, rfl, ⟨1, rfl⟩, rfl,
      ⟨StorePurchaseStatus.AlreadyPurchased, rfl⟩⟩
  refine ⟨hcomp, ?_⟩
  have h := C4_status_code_tables.2.2.2.2.1 envAllOk (some "9NABCDEF") 0 emptyStore
    StorePurchaseStatus.AlreadyPurchased hcomp rfl
  rw [h]
  rfl

/-- C3: with no foreground window (and the preceding thread-context steps
succeeding, the store id being valid for the purchase path), both UI-bearing
entry points record the descriptive headless-failure message, return −1, and
never dispatch the Store async operation (`dispatched = false`). -/
theorem C3_no_foreground_window (env : Env) (sid : Option String)
    (tid : ThreadId) (es : ErrorStore)
    (hia : env.initApartment = Except.ok ())
    (hgd : env.getDefault = Except.ok ())
    (hfg : env.foregroundWindow = none)
    (hsid : validStoreId sid) :
    msstore_winrt_request_purchase env sid tid es =
      ⟨-1, setError es tid "No foreground window handle available for Store UI.",
        false⟩ ∧
    msstore_winrt_request_rate_and_review env tid es =
      ⟨-1, setError es tid "No foreground window handle available for Store UI.",
        false⟩ := by
  obtain ⟨s, rfl, hs⟩ := hsid
  constructor
  · simp [msstore_winrt_request_purchase, initialize_store_ui_owner, hia, hgd,
      hfg, hs]
  · simp [msstore_winrt_request_rate_and_review, initialize_store_ui_owner,
      hia, hgd, hfg]

/-- A headless environment: everything fine except that no foreground
window exists. -/
def envNoFg : Env := { envAllOk with foregroundWindow := none }

/-- Witness for C3 at a concrete headless call. -/
theorem C3_no_foreground_window_witness :
    (msstore_winrt_request_purchase envNoFg (some "9NABCDEF") 0 emptyStore).ret = -1 ∧
    (msstore_winrt_request_purchase envNoFg (some "9NABCDEF") 0 emptyStore).store 0 =
      "No foreground window handle available for Store UI." ∧
    (msstore_winrt_request_purchase envNoFg (some "9NABCDEF") 0
      emptyStore).dispatched = false := by
  have h := C3_no_foreground_window envNoFg (some "9NABCDEF") 0 emptyStore rfl rfl
    rfl ⟨"9NABCDEF", rfl, by decide⟩
  rw [h.1]
  exact ⟨rfl, rfl, rfl⟩

/-- C7: whatever exception the `try` body of an entry point encounters —
platform-reported (`hresult_error`), generic runtime (`std::exception`), or
unknown (`catch (...)`) — the entry point absorbs it, stores the most
specific available message (`storedMessage`) into the calling thread's slot,
and returns only the sentinel (`none` / −1).  That no exception crosses the
boundary is expressed by the entry points being total functions into plain
return values. -/
theorem C7_failures_absorbed (env : Env) (sid : Option String)
    (tid : ThreadId) (es : ErrorStore) (f : PlatformFailure) :
    (license_caught_failure env = some f →
      msstore_winrt_get_license_json env tid es =
        (none, setError es tid f.storedMessage)) ∧
    (purchase_caught_failure env sid = some f →
      (msstore_winrt_request_purchase env sid tid es).ret = -1 ∧
      (msstore_winrt_request_purchase env sid tid es).store =
        setError es tid f.storedMessage) ∧
    (rate_caught_failure env = some f →
      (msstore_winrt_request_rate_and_review env tid es).ret = -1 ∧
      (msstore_winrt_request_rate_and_review env tid es).store =
        setError es tid f.storedMessage) := by
  obtain ⟨ia, gd, al, fg, iw, pr, rd, ro, aok⟩ := env
  refine ⟨?_, ?_, ?_⟩
  · rcases ia with f1 | ⟨⟩ <;> rcases gd with f2 | ⟨⟩ <;>
      rcases al with f3 | (_ | l) <;>
      simp [license_caught_failure, msstore_winrt_get_license_json] <;>
      (rintro rfl; rfl)
  · cases sid with
    | none => simp [purchase_caught_failure]
    | some s =>
        by_cases hs : s = ""
        · subst hs; simp [purchase_caught_failure]
        · rcases ia with f1 | ⟨⟩ <;> rcases gd with f2 | ⟨⟩ <;>
            rcases fg with _ | w <;> rcases iw with f3 | ⟨⟩ <;>
            rcases pr with f4 | (_ | st) <;>
            simp [purchase_caught_failure, msstore_winrt_request_purchase,
              initialize_store_ui_owner, hs] <;>
            (rintro rfl; simp)
  · rcases ia with f1 | ⟨⟩ <;> rcases gd with f2 | ⟨⟩ <;>
      rcases fg with _ | w <;> rcases iw with f3 | ⟨⟩ <;>
      rcases rd with f4 | ⟨⟩ <;> rcases hres : ro.results with f5 | (_ | st) <;>
      simp [rate_caught_failure, msstore_winrt_request_rate_and_review,
        initialize_store_ui_owner, wait_for_rate_and_review_result_snd, hres] <;>
      (rintro rfl; simp)

/-- An environment whose very first platform step throws a generic runtime
error. -/
def envStdFail : Env :=
  { envAllOk with initApartment := Except.error (PlatformFailure.stdError "boom") }

/-- Witness for C7: the same concrete thrown failure is absorbed by all
three operation entry points. -/
theorem C7_failures_absorbed_witness :
    license_caught_failure envStdFail = some (PlatformFailure.stdError "boom") ∧
    msstore_winrt_get_license_json envStdFail 0 emptyStore =
      (none, setError emptyStore 0 "boom") ∧
    (msstore_winrt_request_purchase envStdFail (some "9NABCDEF") 0 emptyStore).ret =
      -1 ∧
    (msstore_winrt_request_rate_and_review envStdFail 0 emptyStore).ret = -1 := by
  have h := C7_failures_absorbed envStdFail (some "9NABCDEF") 0 emptyStore
    (PlatformFailure.stdError "boom")
  exact ⟨by decide, h.1 (by decide), (h.2.1 (by decide)).1, (h.2.2 (by decide)).1⟩

/-! ## Error-slot contents after each entry point (claim C1 material) -/

/-- An environment in which the license fetch succeeds but the result-buffer
allocation (`CoTaskMemAlloc`) fails. -/
def envNoAlloc : Env := { envAllOk with allocOk := false }

/-- An environment in which the awaited license fetch throws an
`hresult_error` whose message is the empty string. -/
def envEmptyMsg : Env :=
  { envAllOk with appLicense := Except.error (PlatformFailure.hresultError "") }

theorem license_slot_spec (env : Env) (tid : ThreadId) (es : ErrorStore)
    (hWF : envWF env) :
    ((msstore_winrt_get_license_json env tid es).1 ≠ none →
      (msstore_winrt_get_license_json env tid es).2 tid = "") ∧
    ((msstore_winrt_get_license_json env tid es).1 = none →
      ¬ licenseFetchSucceeded env →
      (msstore_winrt_get_license_json env tid es).2 tid ≠ "") ∧
    ((msstore_winrt_get_license_json env tid es).1 = none →
      licenseFetchSucceeded env →
      env.allocOk = false ∧ (msstore_winrt_get_license_json env tid es).2 tid = "") := by
  obtain ⟨ia, gd, al, fg, iw, pr, rd, ro, aok⟩ := env
  obtain ⟨w1, w2, w3, w4, w5, w6, w7⟩ := hWF
  refine ⟨?_, ?_, ?_⟩
  · rcases ia with f1 | ⟨⟩ <;> rcases gd with f2 | ⟨⟩ <;>
      rcases al with f3 | (_ | l) <;> cases aok <;>
      simp [msstore_winrt_get_license_json, dup_string, setError]
  · rcases ia with f1 | ⟨⟩ <;> rcases gd with f2 | ⟨⟩ <;>
      rcases al with f3 | (_ | l) <;> cases aok <;>
      simp [msstore_winrt_get_license_json, dup_string, setError,
        licenseFetchSucceeded] <;>
      first
      | exact w1 f1 rfl
      | exact w2 f2 rfl
      | exact w3 f3 rfl
      | decide
  · rcases ia with f1 | ⟨⟩ <;> rcases gd with f2 | ⟨⟩ <;>
      rcases al with f3 | (_ | l) <;> cases aok <;>
      simp [msstore_winrt_get_license_json, dup_string, setError,
        licenseFetchSucceeded]

theorem purchase_slot_spec (env : Env) (sid : Option String) (tid : ThreadId)
    (es : ErrorStore) (hWF : envWF env) :
    ((msstore_winrt_request_purchase env sid tid es).ret ≠ -1 →
      (msstore_winrt_request_purchase env sid tid es).store tid = "") ∧
    ((msstore_winrt_request_purchase env sid tid es).ret = -1 →
      (msstore_winrt_request_purchase env sid tid es).store tid ≠ "") := by
  obtain ⟨ia, gd, al, fg, iw, pr, rd, ro, aok⟩ := env
  obtain ⟨w1, w2, w3, w4, w5, w6, w7⟩ := hWF
  cases sid with
  | none =>
      refine ⟨?_, ?_⟩ <;>
        simp [msstore_winrt_request_purchase, setError] <;> decide
  | some s =>
      by_cases hs : s = ""
      · subst hs
        refine ⟨?_, ?_⟩ <;>
          simp [msstore_winrt_request_purchase, setError] <;> decide
      · refine ⟨?_, ?_⟩ <;>
          rcases ia with f1 | ⟨⟩ <;> rcases gd with f2 | ⟨⟩ <;>
          rcases fg with _ | w <;> rcases iw with f3 | ⟨⟩ <;>
          rcases pr with f4 | (_ | st) <;>
          simp [msstore_winrt_request_purchase, initialize_store_ui_owner, hs,
            setError, map_purchase_status_ne_neg_one] <;>
          first
          | exact w1 f1 rfl
          | exact w2 f2 rfl
          | exact w4 f3 rfl
          | exact w5 f4 rfl
          | decide

theorem rate_slot_spec (env : Env) (tid : ThreadId) (es : ErrorStore)
    (hWF : envWF env) :
    ((msstore_winrt_request_rate_and_review env tid es).ret ≠ -1 →
      (msstore_winrt_request_rate_and_review env tid es).store tid = "") ∧
    ((msstore_winrt_request_rate_and_review env tid es).ret = -1 →
      (msstore_winrt_request_rate_and_review env tid es).store tid ≠ "") := by
  obtain ⟨ia, gd, al, fg, iw, pr, rd, ro, aok⟩ := env
  obtain ⟨w1, w2, w3, w4, w5, w6, w7⟩ := hWF
  refine ⟨?_, ?_⟩ <;>
    rcases ia with f1 | ⟨⟩ <;> rcases gd with f2 | ⟨⟩ <;>
    rcases fg with _ | w <;> rcases iw with f3 | ⟨⟩ <;>
    rcases rd with f4 | ⟨⟩ <;> rcases hres : ro.results with f5 | (_ | st) <;>
    simp [msstore_winrt_request_rate_and_review, initialize_store_ui_owner,
      wait_for_rate_and_review_result_snd, hres, setError,
      map_rate_and_review_status_ne_neg_one] <;>
    first
    | exact w1 f1 rfl
    | exact w2 f2 rfl
    | exact w4 f3 rfl
    | exact w6 f4 rfl
    | exact w7 f5 hres
    | decide

/-- C1 counterexample.  The claim as stated is false on three concrete
calls: (a) `msstore_winrt_get_last_error` succeeds (returns a non-null
buffer) on a thread whose slot holds `"boom"`, yet the slot reads as
non-empty afterwards (reads do not clear it); (b) with the license fetch
succeeding but `CoTaskMemAlloc` failing, `msstore_winrt_get_license_json`
fails (returns null) yet the slot reads as empty afterwards; (c) with the
fetch throwing an `hresult_error` carrying an empty message, the call fails
yet the slot reads as empty. -/
theorem C1_counterexample :
    ((msstore_winrt_get_last_error true 0 (setError emptyStore 0 "boom")).1 ≠ none ∧
      (msstore_winrt_get_last_error true 0 (setError emptyStore 0 "boom")).2 0 ≠ "") ∧
    ((msstore_winrt_get_license_json envNoAlloc 0 (setError emptyStore 0 "old")).1 =
        none ∧
      (msstore_winrt_get_license_json envNoAlloc 0 (setError emptyStore 0 "old")).2 0 =
        "") ∧
    ((msstore_winrt_get_license_json envEmptyMsg 0 emptyStore).1 = none ∧
      (msstore_winrt_get_license_json envEmptyMsg 0 emptyStore).2 0 = "") := by
  refine ⟨⟨?_, ?_⟩, ⟨?_, ?_⟩, ⟨?_, ?_⟩⟩ <;> decide

/-- C1 (amended): for the three operation entry points, assuming every
platform-thrown failure carries a non-empty message: a successful call
leaves the calling thread's slot empty, and a failed call leaves it
non-empty — except that `msstore_winrt_get_license_json` returns null with
an empty slot when the fetch itself succeeded and only the result-buffer
allocation failed.  `msstore_winrt_get_last_error` never modifies any slot
(so it does not re-establish the success/failure reading). -/
theorem C1_errorslot_after_call (env : Env) (sid : Option String)
    (tid : ThreadId) (es : ErrorStore) (hWF : envWF env) :
    ((msstore_winrt_get_license_json env tid es).1 ≠ none →
      (msstore_winrt_get_license_json env tid es).2 tid = "") ∧
    ((msstore_winrt_get_license_json env tid es).1 = none →
      ¬ licenseFetchSucceeded env →
      (msstore_winrt_get_license_json env tid es).2 tid ≠ "") ∧
    ((msstore_winrt_get_license_json env tid es).1 = none →
      licenseFetchSucceeded env →
      env.allocOk = false ∧ (msstore_winrt_get_license_json env tid es).2 tid = "") ∧
    ((msstore_winrt_request_purchase env sid tid es).ret ≠ -1 →
      (msstore_winrt_request_purchase env sid tid es).store tid = "") ∧
    ((msstore_winrt_request_purchase env sid tid es).ret = -1 →
      (msstore_winrt_request_purchase env sid tid es).store tid ≠ "") ∧
    ((msstore_winrt_request_rate_and_review env tid es).ret ≠ -1 →
      (msstore_winrt_request_rate_and_review env tid es).store tid = "") ∧
    ((msstore_winrt_request_rate_and_review env tid es).ret = -1 →
      (msstore_winrt_request_rate_and_review env tid es).store tid ≠ "") ∧
    (∀ ok, (msstore_winrt_get_last_error ok tid es).2 = es) := by
  obtain ⟨h1, h2, h3⟩ := license_slot_spec env tid es hWF
  obtain ⟨h4, h5⟩ := purchase_slot_spec env sid tid es hWF
  obtain ⟨h6, h7⟩ := rate_slot_spec env tid es hWF
  exact ⟨h1, h2, h3, h4, h5, h6, h7, fun ok => rfl⟩

/-- Witness for C1 (amended): in the all-success environment a purchase
call and a license call leave the slot empty, and a stale message is
overwritten. -/
theorem C1_errorslot_after_call_witness :
    (msstore_winrt_request_purchase envAllOk (some "9NABCDEF") 0
      (setError emptyStore 0 "stale")).store 0 = "" ∧
    (msstore_winrt_get_license_json envAllOk 0 emptyStore).2 0 = "" := by
  have hWF : envWF envAllOk := by
    refine ⟨?_, ?_, ?_, ?_, ?_, ?_, ?_⟩ <;> intro f h <;> simp [envAllOk, opDone] at h
  have h := C1_errorslot_after_call envAllOk (some "9NABCDEF") 0
    (setError emptyStore 0 "stale") hWF
  have h2 := C1_errorslot_after_call envAllOk (some "9NABCDEF") 0 emptyStore hWF
  exact ⟨h.2.2.2.1 (by decide), h2.1 (by decide)⟩

/-! ## Trace structure of the pumping wait (claim C6 material) -/

/-- The concatenated events of `fuel` consecutive pump cycles starting at
cycle `k`. -/
def cyclesEvents (op : AsyncOpModel) : Nat → Nat → List Ev
  | 0, _ => []
  | fuel + 1, k => pumpCycleEvents op k ++ cyclesEvents op fuel (k + 1)

theorem wait_go_trace (op : AsyncOpModel) (fuel : Nat) :
    ∀ k, fuel + k = op.completesAfter →
      (wait_go op fuel k).1 =
        cyclesEvents op fuel k ++
          [Ev.statusCheck op.completesAfter op.finalStatus, Ev.getResults] := by
  induction fuel with
  | zero =>
      intro k h
      have hk : k = op.completesAfter := by omega
      subst hk
      simp [wait_go, cyclesEvents, AsyncOpModel.statusAt]
  | succ n ih =>
      intro k h
      have hk : k < op.completesAfter := by omega
      have hs : op.statusAt k = AsyncStatus.Started := by
        simp [AsyncOpModel.statusAt, hk]
      simp [wait_go, hs, cyclesEvents, ih (k + 1) (by omega)]

/-- The full trace of the pumping wait: one pump cycle per `Started` poll,
then the final status check and the single `GetResults()`. -/
theorem wait_trace (op : AsyncOpModel) :
    (wait_for_rate_and_review_result op).1 =
      cyclesEvents op op.completesAfter 0 ++
        [Ev.statusCheck op.completesAfter op.finalStatus, Ev.getResults] :=
  wait_go_trace op op.completesAfter 0 (by omega)

theorem getResults_not_mem_pumpCycleEvents (op : AsyncOpModel) (k : Nat) :
    Ev.getResults ∉ pumpCycleEvents op k := by
  simp [pumpCycleEvents]

theorem getResults_not_mem_cyclesEvents (op : AsyncOpModel) (fuel : Nat) :
    ∀ k, Ev.getResults ∉ cyclesEvents op fuel k := by
  induction fuel with
  | zero => intro k; simp [cyclesEvents]
  | succ n ih =>
      intro k
      simp only [cyclesEvents, List.mem_append]
      rintro (h | h)
      · exact getResults_not_mem_pumpCycleEvents op k h
      · exact ih (k + 1) h

theorem dispatch_mem_cyclesEvents (op : AsyncOpModel) (fuel : Nat) :
    ∀ start k m, start ≤ k → k < start + fuel → m ∈ op.pending k →
      Ev.dispatch m ∈ cyclesEvents op fuel start := by
  induction fuel with
  | zero => intro start k m h1 h2 hm; omega
  | succ n ih =>
      intro start k m h1 h2 hm
      rcases Nat.eq_or_lt_of_le h1 with hk | hk
      · subst hk
        refine List.mem_append.mpr (Or.inl ?_)
        simp only [pumpCycleEvents, List.mem_cons, List.mem_append,
          List.mem_map, List.mem_singleton]
        exact Or.inr (Or.inl ⟨m, hm, rfl⟩)
      · exact List.mem_append.mpr
          (Or.inr (ih (start + 1) k m hk (by omega) hm))

theorem wait_trace_count (op : AsyncOpModel) :
    ((wait_for_rate_and_review_result op).1).count Ev.getResults = 1 := by
  rw [wait_trace, List.count_append]
  have h0 : (cyclesEvents op op.completesAfter 0).count Ev.getResults = 0 :=
    List.count_eq_zero.mpr (getResults_not_mem_cyclesEvents op op.completesAfter 0)
  simp [h0, List.count_cons]

/-- C6: given an operation that reports `Started` for `completesAfter` poll
cycles and then `Completed` with a successful result, the pumping wait's
trace is exactly one pump cycle per poll — each cycle observing `Started`
and then translating/dispatching every message pending on that cycle before
the next completion check — followed by the completion check that exits the
loop; every pending message of every cycle is dispatched; `GetResults()`
occurs exactly once in the trace; and the wait returns that single result. -/
theorem C6_pumping_wait (op : AsyncOpModel) (s : StoreRateAndReviewStatus)
    (hfin : op.finalStatus = AsyncStatus.Completed)
    (hres : op.results = Except.ok (some s)) :
    (wait_for_rate_and_review_result op).1 =
      cyclesEvents op op.completesAfter 0 ++
        [Ev.statusCheck op.completesAfter AsyncStatus.Completed, Ev.getResults] ∧
    (∀ k, k < op.completesAfter → ∀ m, m ∈ op.pending k →
      Ev.dispatch m ∈ (wait_for_rate_and_review_result op).1) ∧
    ((wait_for_rate_and_review_result op).1).count Ev.getResults = 1 ∧
    (wait_for_rate_and_review_result op).2 = Except.ok (some s) := by
  refine ⟨?_, ?_, wait_trace_count op, ?_⟩
  · rw [wait_trace, hfin]
  · intro k hk m hm
    rw [wait_trace]
    exact List.mem_append.mpr
      (Or.inl (dispatch_mem_cyclesEvents op op.completesAfter 0 k m
        (Nat.zero_le k) (by omega) hm))
  · rw [wait_for_rate_and_review_result_snd, hres]

/-- An operation that completes successfully after two poll cycles, with
messages queued on both cycles. -/
def opTwoCycles : AsyncOpModel :=
  ⟨2, AsyncStatus.Completed, by decide,
    fun k => if k = 0 then [10] else if k = 1 then [11, 12] else [],
    Except.ok (some StoreRateAndReviewStatus.Succeeded)⟩

/-- Witness for C6 on a concrete two-cycle operation. -/
theorem C6_pumping_wait_witness :
    opTwoCycles.finalStatus = AsyncStatus.Completed ∧
    ((wait_for_rate_and_review_result opTwoCycles).1).count Ev.getResults = 1 ∧
    (wait_for_rate_and_review_result opTwoCycles).2 =
      Except.ok (some StoreRateAndReviewStatus.Succeeded) :=
  ⟨rfl,
    (C6_pumping_wait opTwoCycles StoreRateAndReviewStatus.Succeeded rfl rfl).2.2.1,
    (C6_pumping_wait opTwoCycles StoreRateAndReviewStatus.Succeeded rfl rfl).2.2.2⟩

/-! ## Thread isolation of the error store (claim C8 material) -/

theorem license_store_frame (env : Env) (tid : ThreadId) (es : ErrorStore)
    (t : ThreadId) (h : t ≠ tid) :
    (msstore_winrt_get_license_json env tid es).2 t = es t := by
  obtain ⟨ia, gd, al, fg, iw, pr, rd, ro, aok⟩ := env
  rcases ia with f1 | ⟨⟩ <;> rcases gd with f2 | ⟨⟩ <;>
    rcases al with f3 | (_ | l) <;>
    simp [msstore_winrt_get_license_json, setError, h]

theorem purchase_store_frame (env : Env) (sid : Option String)
    (tid : ThreadId) (es : ErrorStore) (t : ThreadId) (h : t ≠ tid) :
    (msstore_winrt_request_purchase env sid tid es).store t = es t := by
  obtain ⟨ia, gd, al, fg, iw, pr, rd, ro, aok⟩ := env
  cases sid with
  | none => simp [msstore_winrt_request_purchase, setError, h]
  | some s =>
      by_cases hs : s = ""
      · subst hs; simp [msstore_winrt_request_purchase, setError, h]
      · rcases ia with f1 | ⟨⟩ <;> rcases gd with f2 | ⟨⟩ <;>
          rcases fg with _ | w <;> rcases iw with f3 | ⟨⟩ <;>
          rcases pr with f4 | (_ | st) <;>
          simp [msstore_winrt_request_purchase, initialize_store_ui_owner, hs,
            setError, h]

theorem rate_store_frame (env : Env) (tid : ThreadId) (es : ErrorStore)
    (t : ThreadId) (h : t ≠ tid) :
    (msstore_winrt_request_rate_and_review env tid es).store t = es t := by
  obtain ⟨ia, gd, al, fg, iw, pr, rd, ro, aok⟩ := env
  rcases ia with f1 | ⟨⟩ <;> rcases gd with f2 | ⟨⟩ <;>
    rcases fg with _ | w <;> rcases iw with f3 | ⟨⟩ <;>
    rcases rd with f4 | ⟨⟩ <;> rcases hres : ro.results with f5 | (_ | st) <;>
    simp [msstore_winrt_request_rate_and_review, initialize_store_ui_owner,
      wait_for_rate_and_review_result_snd, hres, setError, h]

theorem stepCall_frame (tid : ThreadId) (c : Call) (es : ErrorStore)
    (t : ThreadId) (h : t ≠ tid) : stepCall tid c es t = es t := by
  cases c with
  | licenseCall env => exact license_store_frame env tid es t h
  | purchaseCall env sid => exact purchase_store_frame env sid tid es t h
  | rateCall env => exact rate_store_frame env tid es t h
  | lastErrorCall ok => rfl

/-- C8: no entry point ever reads or writes another thread's slot — the
slot of any thread other than the caller is unchanged by a single call, and
unchanged by any sequence of calls none of which that thread issues.
(That no call *reads* a foreign slot holds structurally: every entry point
takes the calling thread id and consults `es` only at `tid`.) -/
theorem C8_thread_isolation :
    (∀ tid c es t, t ≠ tid → stepCall tid c es t = es t) ∧
    (∀ seq es t, (∀ p, p ∈ seq → p.1 ≠ t) → runCalls seq es t = es t) := by
  refine ⟨stepCall_frame, ?_⟩
  intro seq
  induction seq with
  | nil => intro es t h; rfl
  | cons p rest ih =>
      intro es t h
      obtain ⟨tid, c⟩ := p
      have hstep : stepCall tid c es t = es t :=
        stepCall_frame tid c es t (fun ht => h (tid, c) (List.mem_cons_self _ _) (by simp [ht]))
      calc runCalls ((tid, c) :: rest) es t
          = runCalls rest (stepCall tid c es) t := rfl
        _ = stepCall tid c es t := ih (stepCall tid c es) t
            (fun q hq => h q (List.mem_cons_of_mem _ hq))
        _ = es t := hstep

/-- Witness for C8: two calls by thread 0 leave thread 1's slot intact. -/
theorem C8_thread_isolation_witness :
    runCalls [(0, Call.purchaseCall envAllOk none), (0, Call.rateCall envStdFail)]
      (setError emptyStore 1 "kept") 1 = "kept" := by
  have h := C8_thread_isolation.2
    [(0, Call.purchaseCall envAllOk none), (0, Call.rateCall envStdFail)]
    (setError emptyStore 1 "kept") 1 ?_
  · exact h.trans rfl
  · intro p hp
    rcases List.mem_cons.mp hp with rfl | hp2
    · decide
    · rcases List.mem_cons.mp hp2 with rfl | hp3
      · decide
      · exact absurd hp3 (List.not_mem_nil p)

end MsStoreWinrt
